import Mathlib

/-!
Verification of the headless Switch (toggle) component,
src/packages/@headlessui-react/src/components/switch/switch.tsx.

The component body is embedded shallowly: each event handler becomes a pure
function from the component's state to a record of its observable effects
(default-action suppression, values passed to the caller's onChange, submit
attempts, the new internal state). Collaborating utilities that live in the
repository outside this file (useControllable, the key constants, attemptSubmit,
the polymorphic render merge) are modelled from the specification and marked so.
-/

namespace HeadlessSwitch

/-- The props the Switch destructures (switch.tsx lines 122-131). A `none`
models a prop the caller left undefined. -/
structure SwitchConfig where
  controlledChecked : Option Bool
  defaultChecked : Option Bool
  name : Option String
  value : Option String
deriving Repr, DecidableEq

/-- The binding produced by the destructuring default `defaultChecked = false`
(switch.tsx line 126): an absent prop is replaced by `false`, so the
destructured `defaultChecked` is always a defined boolean. -/
def destructuredDefaultChecked (cfg : SwitchConfig) : Option Bool :=
  some (cfg.defaultChecked.getD false)

/-- One mounted Switch: its props plus the internal state cell that
`useControllable` keeps (initialised to the destructured default). -/
structure SwitchState where
  cfg : SwitchConfig
  internal : Bool
deriving Repr, DecidableEq

/-- Modelled from the spec: `useControllable` (hooks/use-controllable, not under
src/) treats the instance as Controlled exactly when a `checked` prop was
supplied. -/
def isControlled (st : SwitchState) : Bool :=
  st.cfg.controlledChecked.isSome

/-- Modelled from the spec: the value `useControllable` returns — the
controlled prop when supplied, the internal state otherwise. -/
def checkedOf (st : SwitchState) : Bool :=
  st.cfg.controlledChecked.getD st.internal

/-- Modelled from the spec: the `onChange` returned by `useControllable`:
invoked with the next value on every toggle; in Uncontrolled mode it also
updates the internal state, in Controlled mode the internal value is left to
the caller. Returns (values forwarded to the caller's onChange handler, the
new internal state). -/
def controllableOnChange (st : SwitchState) (next : Bool) : List Bool × Bool :=
  if isControlled st then ([next], st.internal) else ([next], next)

/-- `toggle` (switch.tsx line 142): `onChange?.(!checked)`. -/
def toggle (st : SwitchState) : List Bool × Bool :=
  controllableOnChange st (! checkedOf st)

/-- Observable effects of one handler invocation. -/
structure HandlerResult where
  defaultPrevented : Bool
  onChangeCalls : List Bool
  submitAttempted : Bool
  newInternal : Bool
deriving Repr, DecidableEq

/-- `handleClick` (switch.tsx lines 143-147): when `isDisabledReactIssue7711`
judges the current target disabled, prevent default and return; otherwise
prevent default and `toggle()`. The predicate (utils/bugs, not under src/) is
kept opaque as the boolean argument. -/
def handleClick (targetDisabledReactIssue7711 : Bool) (st : SwitchState) :
    HandlerResult :=
  if targetDisabledReactIssue7711 then
    { defaultPrevented := true, onChangeCalls := [], submitAttempted := false,
      newInternal := st.internal }
  else
    { defaultPrevented := true, onChangeCalls := (toggle st).1,
      submitAttempted := false, newInternal := (toggle st).2 }

namespace Keys

/-- Modelled from the spec: the Space key constant (components/keyboard, not
under src/) is the DOM key string of the space bar. -/
def Space : String := " "

/-- Modelled from the spec: the Enter key constant (components/keyboard, not
under src/). -/
def Enter : String := "Enter"

end Keys

/-- `handleKeyUp` (switch.tsx lines 148-155): Space prevents default and
toggles; Enter attempts to submit the nearest enclosing form (`attemptSubmit`,
utils/form, not under src/, is modelled from the spec as the `submitAttempted`
effect flag); every other key does nothing. -/
def handleKeyUp (key : String) (st : SwitchState) : HandlerResult :=
  if key = Keys.Space then
    { defaultPrevented := true, onChangeCalls := (toggle st).1,
      submitAttempted := false, newInternal := (toggle st).2 }
  else if key = Keys.Enter then
    { defaultPrevented := false, onChangeCalls := [], submitAttempted := true,
      newInternal := st.internal }
  else
    { defaultPrevented := false, onChangeCalls := [], submitAttempted := false,
      newInternal := st.internal }

/-- `handleKeyPress` (switch.tsx line 158): unconditionally
`event.preventDefault()`, whatever the key; nothing else happens. -/
def handleKeyPress (_key : String) (st : SwitchState) : HandlerResult :=
  { defaultPrevented := true, onChangeCalls := [], submitAttempted := false,
    newInternal := st.internal }

/-- The form-reset effect (switch.tsx lines 176-184): the values the reset
listener passes to `onChange` when the form fires a reset event. No enclosing
form: no listener. A destructured `defaultChecked` equal to undefined would
also skip registration; otherwise the listener calls
`onChange(defaultChecked)`. -/
def resetOnChangeCalls (cfg : SwitchConfig) (inForm : Bool) : List Bool :=
  if inForm then
    match destructuredDefaultChecked cfg with
    | none => []
    | some d => [d]
  else []

/-- Effects of the Group's label onClick handler (switch.tsx lines 69-76). -/
structure LabelClickResult where
  defaultPrevented : Bool
  switchClicked : Bool
  switchFocused : Bool
deriving Repr, DecidableEq

/-- The click handler the Group supplies to its Label (switch.tsx lines 69-76):
return at once when no switch element has registered; prevent default exactly
when the label's currentTarget tagName is LABEL; then programmatically click
and focus the registered switch element. -/
def groupLabelOnClick (switchElement : Option Unit) (currentTargetTagName : String) :
    LabelClickResult :=
  match switchElement with
  | none => { defaultPrevented := false, switchClicked := false, switchFocused := false }
  | some _ =>
    { defaultPrevented := currentTargetTagName == "LABEL",
      switchClicked := true, switchFocused := true }

/-- Modelled from the spec: the browser forwards a click on a native label
element whose default action was not prevented as one extra activation of the
associated control; other elements forward nothing. -/
def nativeLabelForwardedActivations (tagName : String) (defaultPrevented : Bool) : Nat :=
  if tagName == "LABEL" && ! defaultPrevented then 1 else 0

/-- How many activations the registered switch receives from one label click:
the handler's programmatic click plus any native label forwarding. -/
def labelClickActivations (switchElement : Option Unit) (tagName : String) : Nat :=
  (if (groupLabelOnClick switchElement tagName).switchClicked then 1 else 0) +
    nativeLabelForwardedActivations tagName
      (groupLabelOnClick switchElement tagName).defaultPrevented

/-- Props of the hidden mirror input (switch.tsx lines 189-200). -/
structure HiddenFieldProps where
  type : String
  hidden : Bool
  readOnly : Bool
  checked : Bool
  name : String
  value : Option String
deriving Repr, DecidableEq

/-- The conditional hidden mirror render (switch.tsx lines 188-201): the list
of auxiliary fields emitted, rendered exactly when `name != null && checked`. -/
def renderedHiddenFields (name : Option String) (value : Option String)
    (checked : Bool) : List HiddenFieldProps :=
  match name with
  | some n =>
    if checked then
      [{ type := "checkbox", hidden := true, readOnly := true,
         checked := checked, name := n, value := value }]
    else []
  | none => []

/-- The labelling fields of the Group context (switch.tsx lines 32-37). -/
structure GroupContextModel where
  labelledby : Option String
  describedby : Option String
deriving Repr, DecidableEq

/-- Attribute names on the rendered interactive element; the five controlled
names are distinguished, every other name is carried as a string. -/
inductive AttrName
  | role
  | ariaChecked
  | ariaDescribedby
  | ariaLabelledby
  | tabIndex
  | other (s : String)
deriving Repr, DecidableEq

/-- `SwitchPropsWeControl` (switch.tsx lines 98-103). -/
def SwitchPropsWeControl : List AttrName :=
  [AttrName.ariaChecked, AttrName.ariaDescribedby, AttrName.ariaLabelledby,
   AttrName.role, AttrName.tabIndex]

/-- Attribute values. -/
inductive AttrValue
  | str (s : String)
  | bool (b : Bool)
  | nat (n : Nat)
deriving Repr, DecidableEq

/-- The controlled-attribute entries of `ourProps` (switch.tsx lines 161-173):
role is switch, tabIndex is 0, aria-checked mirrors `checked`, labelled-by and
described-by come from the enclosing Group context when present. -/
def ourPropsAttr (checked : Bool) (groupContext : Option GroupContextModel) :
    AttrName → Option AttrValue
  | AttrName.role => some (AttrValue.str "switch")
  | AttrName.tabIndex => some (AttrValue.nat 0)
  | AttrName.ariaChecked => some (AttrValue.bool checked)
  | AttrName.ariaLabelledby =>
    (groupContext.bind (fun g => g.labelledby)).map AttrValue.str
  | AttrName.ariaDescribedby =>
    (groupContext.bind (fun g => g.describedby)).map AttrValue.str
  | AttrName.other _ => none

/-- Modelled from the spec: the polymorphic render collaborator (utils/render,
not under src/) merges the computed props with the caller props; for the names
listed in SwitchPropsWeControl the internally computed value always wins and a
caller override is discarded, while any other name takes the caller value when
supplied. -/
def renderMergeAttr (ourProps theirProps : AttrName → Option AttrValue)
    (k : AttrName) : Option AttrValue :=
  if k ∈ SwitchPropsWeControl then ourProps k
  else (theirProps k).orElse (fun _ => ourProps k)

/-- Internal state of an Uncontrolled switch after a number of successive
click activations, none judged platform-disabled; the state cell starts at the
destructured default. -/
def clicksInternal (cfg : SwitchConfig) : Nat → Bool
  | 0 => cfg.defaultChecked.getD false
  | n + 1 =>
    (handleClick false { cfg := cfg, internal := clicksInternal cfg n }).newInternal

/-- The Uncontrolled configuration with `defaultChecked = false` and no other
props. -/
def uncontrolledFalseCfg : SwitchConfig :=
  { controlledChecked := none, defaultChecked := some false,
    name := none, value := none }

end HeadlessSwitch

namespace HeadlessSwitch

theorem toggle_fst (st : SwitchState) : (toggle st).1 = [! checkedOf st] := by
  unfold toggle controllableOnChange
  split <;> rfl

theorem clicksInternal_succ (n : Nat) :
    clicksInternal uncontrolledFalseCfg (n + 1)
      = ! clicksInternal uncontrolledFalseCfg n := by
  simp [clicksInternal, handleClick, toggle, controllableOnChange, isControlled,
    checkedOf, uncontrolledFalseCfg]

theorem clicksInternal_parity (n : Nat) :
    clicksInternal uncontrolledFalseCfg n = decide (n % 2 = 1) := by
  induction n with
  | zero => simp [clicksInternal, uncontrolledFalseCfg]
  | succ n ih =>
    rw [clicksInternal_succ, ih]
    rcases Nat.mod_two_eq_zero_or_one n with h | h <;> simp [Nat.add_mod, h]

/-- Claim C1: for an Uncontrolled Switch mounted with defaultChecked = false,
after any sequence of N click activations (none judged platform-disabled) the
internal checked value equals true exactly when N is odd, and each click flips
the value by passing the negation of the current checked value to onChange. -/
theorem uncontrolled_clicks_checked_iff_odd (n : Nat) :
    checkedOf ⟨uncontrolledFalseCfg, clicksInternal uncontrolledFalseCfg n⟩
      = decide (n % 2 = 1)
    ∧ (handleClick false
        ⟨uncontrolledFalseCfg, clicksInternal uncontrolledFalseCfg n⟩).onChangeCalls
      = [! checkedOf ⟨uncontrolledFalseCfg, clicksInternal uncontrolledFalseCfg n⟩] := by
  constructor
  · exact clicksInternal_parity n
  · exact toggle_fst ⟨uncontrolledFalseCfg, clicksInternal uncontrolledFalseCfg n⟩

/-- A Controlled configuration: checked prop supplied as b, the other props
arbitrary. -/
def controlledCfg (b : Bool) (d : Option Bool) (nm v : Option String) : SwitchConfig :=
  ⟨some b, d, nm, v⟩

/-- Claim C2: for a Controlled Switch, a single click activation passes the
negation of the checked prop to onChange exactly once, never updates the
internal state, and the rendered checked value after the click is still the
controlled prop until the caller re-renders with a new one. -/
theorem controlled_click_invokes_onChange_once (b internal : Bool)
    (d : Option Bool) (nm v : Option String) :
    (handleClick false ⟨controlledCfg b d nm v, internal⟩).onChangeCalls = [! b]
    ∧ (handleClick false ⟨controlledCfg b d nm v, internal⟩).newInternal = internal
    ∧ checkedOf ⟨controlledCfg b d nm v,
        (handleClick false ⟨controlledCfg b d nm v, internal⟩).newInternal⟩ = b := by
  refine ⟨?_, ?_, ?_⟩ <;>
    simp [handleClick, toggle, controllableOnChange, isControlled, checkedOf,
      controlledCfg]

/-- Claim C3: on key-up, Space suppresses the default action and toggles (the
negation of checked is passed to onChange) without submitting, Enter does not
toggle and attempts a submit of the nearest enclosing form, and for no key
does one event both toggle and submit. -/
theorem keyup_space_toggles_enter_submits (st : SwitchState) :
    ((handleKeyUp Keys.Space st).defaultPrevented = true
      ∧ (handleKeyUp Keys.Space st).onChangeCalls = [! checkedOf st]
      ∧ (handleKeyUp Keys.Space st).submitAttempted = false)
    ∧ ((handleKeyUp Keys.Enter st).onChangeCalls = []
      ∧ (handleKeyUp Keys.Enter st).newInternal = st.internal
      ∧ (handleKeyUp Keys.Enter st).submitAttempted = true)
    ∧ ∀ key : String,
        (handleKeyUp key st).onChangeCalls = []
          ∨ (handleKeyUp key st).submitAttempted = false := by
  have hne : Keys.Enter ≠ Keys.Space := by decide
  refine ⟨⟨rfl, ?_, rfl⟩, ⟨?_, ?_, ?_⟩, ?_⟩
  · exact toggle_fst st
  · simp [handleKeyUp, hne]
  · simp [handleKeyUp, hne]
  · simp [handleKeyUp, hne]
  · intro key
    by_cases h1 : key = Keys.Space
    · right
      simp [handleKeyUp, h1]
    · by_cases h2 : key = Keys.Enter
      · left
        simp [handleKeyUp, h2, hne]
      · left
        simp [handleKeyUp, h1, h2]

/-- A Controlled configuration whose caller supplied no defaultChecked prop:
the failing input of claim C4. -/
def controlledNoDefaultCfg : SwitchConfig :=
  ⟨some true, none, none, none⟩

/-- Claim C4 (failing input): with no caller-supplied defaultChecked, inside a
form, a reset still invokes onChange with false — the destructuring default at
switch.tsx line 126 makes the undefined guard at line 179 unreachable. -/
theorem reset_without_default_still_calls_onChange :
    controlledNoDefaultCfg.defaultChecked = none
    ∧ resetOnChangeCalls controlledNoDefaultCfg true = [false] := by
  exact ⟨rfl, rfl⟩

/-- Claim C5 (counterexample): with a switch registered and the label element
a native LABEL, the handler does prevent the label default action, refuting
the claim that prevention happens exactly when the element is not a native
label-association element. -/
theorem label_click_prevention_condition_cex :
    ¬ ((groupLabelOnClick (some ()) "LABEL").defaultPrevented
        = decide (¬ ("LABEL" = "LABEL"))) := by
  simp [groupLabelOnClick]

/-- Claim C5 (amended): when a switch is registered, the label click handler
prevents the label default action exactly when the label is a native LABEL
element (suppressing the native forwarded activation), then clicks and focuses
the registered switch, so the toggle is activated exactly once. -/
theorem label_click_activates_exactly_once (tag : String) :
    (groupLabelOnClick (some ()) tag).defaultPrevented = (tag == "LABEL")
    ∧ (groupLabelOnClick (some ()) tag).switchClicked = true
    ∧ (groupLabelOnClick (some ()) tag).switchFocused = true
    ∧ labelClickActivations (some ()) tag = 1 := by
  refine ⟨rfl, rfl, rfl, ?_⟩
  simp [labelClickActivations, groupLabelOnClick, nativeLabelForwardedActivations]

/-- Claim C6: the hidden mirror field is rendered exactly when a name is
supplied and checked is true, as a single checkbox-type, hidden, read-only
input carrying the name, value and checked = true; with checked false or no
name nothing is rendered, and no rendered field ever has checked = false. -/
theorem hidden_mirror_field_iff_named_and_checked (n : String) (v : Option String) :
    renderedHiddenFields (some n) v true
      = [⟨"checkbox", true, true, true, n, v⟩]
    ∧ (renderedHiddenFields (some n) v true).length = 1
    ∧ renderedHiddenFields (some n) v false = []
    ∧ (∀ (v2 : Option String) (c : Bool), renderedHiddenFields none v2 c = [])
    ∧ (∀ (nm v2 : Option String) (c : Bool),
        ((renderedHiddenFields nm v2 c).all fun f => f.checked) = true) := by
  refine ⟨rfl, rfl, rfl, fun v2 c => rfl, ?_⟩
  intro nm v2 c
  cases nm <;> cases c <;> simp [renderedHiddenFields]

/-- Claim C7: a click whose target is judged disabled by the platform
inconsistency predicate is swallowed: the default action is suppressed, no
onChange call happens, no submit is attempted and the internal state is
unchanged. -/
theorem disabled_click_swallowed (st : SwitchState) :
    handleClick true st
      = ⟨true, [], false, st.internal⟩ := rfl

/-- Claim C8: with no registered switch element, the Group label click handler
is a no-op: nothing is prevented, clicked or focused. -/
theorem label_click_no_switch_noop (tag : String) :
    groupLabelOnClick none tag = ⟨false, false, false⟩ := rfl

/-- Claim C9: for every caller-supplied override map, the rendered values of
the five controlled attribute names are the internally computed ones — role is
switch, tabIndex is 0, aria-checked mirrors checked, labelled-by and
described-by come from the Group context — while a non-controlled name takes
the caller value when supplied. -/
theorem controlled_attrs_never_overridden (theirProps : AttrName → Option AttrValue)
    (checked : Bool) (g : Option GroupContextModel) :
    renderMergeAttr (ourPropsAttr checked g) theirProps AttrName.role
      = some (AttrValue.str "switch")
    ∧ renderMergeAttr (ourPropsAttr checked g) theirProps AttrName.tabIndex
      = some (AttrValue.nat 0)
    ∧ renderMergeAttr (ourPropsAttr checked g) theirProps AttrName.ariaChecked
      = some (AttrValue.bool checked)
    ∧ renderMergeAttr (ourPropsAttr checked g) theirProps AttrName.ariaLabelledby
      = (g.bind fun gc => gc.labelledby).map AttrValue.str
    ∧ renderMergeAttr (ourPropsAttr checked g) theirProps AttrName.ariaDescribedby
      = (g.bind fun gc => gc.describedby).map AttrValue.str
    ∧ (∀ s : String,
        renderMergeAttr (ourPropsAttr checked g) theirProps (AttrName.other s)
          = (theirProps (AttrName.other s)).orElse
              (fun _ => ourPropsAttr checked g (AttrName.other s))) := by
  refine ⟨?_, ?_, ?_, ?_, ?_, fun s => ?_⟩ <;>
    simp [renderMergeAttr, SwitchPropsWeControl, ourPropsAttr]

/-- Claim C10: the keypress handler suppresses the default action for every
key, and its press phase never toggles, submits or changes state. -/
theorem keypress_always_prevents_default (key : String) (st : SwitchState) :
    handleKeyPress key st = ⟨true, [], false, st.internal⟩ := rfl

end HeadlessSwitch
